import Mathlib

/-
Verification of the performance-metrics collector and telemetry pipeline of
the Universal Request Analyzer repository.

The collector (`PerformanceMetricsCollector` in the request-capture test
module) is embedded shallowly: its per-request timing state is a JavaScript
`Map` from request id to a mutable record, modelled here as an
insertion-ordered association list with in-place replacement on `set`.
JavaScript numbers are modelled as integers (timestamps) and rationals
(the sampling draw and response times); the JavaScript idiom `x || 0`
is modelled by `jsOr` (for possibly-`undefined` fields) and `jsOrZero`
(for a computed number, where it replaces only a zero result, since over
the integers no NaN arises).
-/

namespace URA

/-- Per-request timing state, as created by `captureRequestStart` and
mutated by `updateRequestTiming` and `finalizeRequest`.  The derived
fields `dns`, `tcp`, `ssl`, `ttfb`, `download` do not exist on the
JavaScript object until `finalizeRequest` assigns them, hence `Option`. -/
structure TimingEntry where
  startTime : Int
  dnsStart : Int
  dnsEnd : Int
  connectStart : Int
  connectEnd : Int
  sslStart : Int
  sslEnd : Int
  sendStart : Int
  sendEnd : Int
  receiveStart : Int
  receiveEnd : Int
  endTime : Int
  total : Int
  dns : Option Int
  tcp : Option Int
  ssl : Option Int
  ttfb : Option Int
  download : Option Int
deriving DecidableEq, Repr

/-- A partial timing update: the argument of `updateRequestTiming`.
Each field is `none` when absent (`undefined`) in the JavaScript object. -/
structure TimingUpdate where
  dnsStart : Option Int
  dnsEnd : Option Int
  connectStart : Option Int
  connectEnd : Option Int
  sslStart : Option Int
  sslEnd : Option Int
  sendStart : Option Int
  sendEnd : Option Int
  receiveStart : Option Int
  receiveEnd : Option Int
deriving DecidableEq, Repr

/-- The collector's `metrics` JavaScript `Map`, as an insertion-ordered
association list. -/
abbrev MetricsMap := List (String × TimingEntry)

/-- JavaScript `Map.prototype.get`. -/
def mapGet (m : MetricsMap) (k : String) : Option TimingEntry :=
  (m.find? (fun p => decide (p.1 = k))).map Prod.snd

/-- JavaScript `Map.prototype.set`: replaces the value in place when the
key is present (insertion order preserved), otherwise appends. -/
def mapSet (m : MetricsMap) (k : String) (v : TimingEntry) : MetricsMap :=
  if m.any (fun p => decide (p.1 = k)) then
    m.map (fun p => if p.1 = k then (k, v) else p)
  else
    m ++ [(k, v)]

/-- The JavaScript expression `x || 0` applied to a possibly-`undefined`
number: `undefined || 0 = 0`, `0 || 0 = 0`, and any other number is kept. -/
def jsOr (o : Option Int) : Int :=
  o.getD 0

/-- The JavaScript expression `n || 0` applied to an integer-valued
number `n`: it replaces only a falsy result (`0`; NaN cannot arise over
the integers), so over this embedding it is the identity. -/
def jsOrZero (x : Int) : Int :=
  if x = 0 then 0 else x

theorem jsOrZero_eq (x : Int) : jsOrZero x = x := by
  unfold jsOrZero
  split <;> simp_all

/-- `PerformanceMetricsCollector` state: `enabled`, `samplingRate`,
`retentionPeriod` from the constructor config, plus the `metrics` map. -/
structure Collector where
  enabled : Bool
  samplingRate : ℚ
  retentionPeriod : Int
  metrics : MetricsMap
deriving DecidableEq, Repr

/-- `shouldCapture()`: `this.enabled && Math.random() * 100 <= this.samplingRate`.
The `Math.random()` draw is passed explicitly as `rand`. -/
def shouldCapture (c : Collector) (rand : ℚ) : Bool :=
  c.enabled && decide (rand * 100 ≤ c.samplingRate)

/-- The fresh timing record `captureRequestStart` installs: `startTime`
set to the given timestamp, every phase timestamp, `endTime` and `total`
set to `0`, and no derived fields yet. -/
def freshEntry (timestamp : Int) : TimingEntry :=
  { startTime := timestamp
    dnsStart := 0
    dnsEnd := 0
    connectStart := 0
    connectEnd := 0
    sslStart := 0
    sslEnd := 0
    sendStart := 0
    sendEnd := 0
    receiveStart := 0
    receiveEnd := 0
    endTime := 0
    total := 0
    dns := none
    tcp := none
    ssl := none
    ttfb := none
    download := none }

/-- `captureRequestStart(requestId, timestamp)`: no-op unless
`shouldCapture()`; otherwise `this.metrics.set(requestId, {...fresh...})`. -/
def captureRequestStart (c : Collector) (rand : ℚ) (requestId : String)
    (timestamp : Int) : Collector :=
  if shouldCapture c rand then
    { c with metrics := mapSet c.metrics requestId (freshEntry timestamp) }
  else
    c

/-- `updateRequestTiming(requestId, timing)`: returns early when the id is
unknown; when `timing` is falsy (`null`/`undefined`) nothing changes;
otherwise every phase field of the stored record is assigned
`timing.field || 0`. -/
def updateRequestTiming (c : Collector) (requestId : String)
    (timing : Option TimingUpdate) : Collector :=
  match mapGet c.metrics requestId with
  | none => c
  | some e =>
    match timing with
    | none => c
    | some t =>
      let e2 : TimingEntry :=
        { e with
          dnsStart := jsOr t.dnsStart
          dnsEnd := jsOr t.dnsEnd
          connectStart := jsOr t.connectStart
          connectEnd := jsOr t.connectEnd
          sslStart := jsOr t.sslStart
          sslEnd := jsOr t.sslEnd
          sendStart := jsOr t.sendStart
          sendEnd := jsOr t.sendEnd
          receiveStart := jsOr t.receiveStart
          receiveEnd := jsOr t.receiveEnd }
      { c with metrics := mapSet c.metrics requestId e2 }

/-- The record produced by `finalizeRequest` from the stored entry `e`
and the given `endTime`: `endTime` assigned first, then each sub-metric
computed as a timestamp difference passed through `|| 0`. -/
def finalizedEntry (e : TimingEntry) (endTime : Int) : TimingEntry :=
  { e with
    endTime := endTime
    dns := some (jsOrZero (e.dnsEnd - e.dnsStart))
    tcp := some (jsOrZero (e.connectEnd - e.connectStart - (e.sslEnd - e.sslStart)))
    ssl := some (jsOrZero (e.sslEnd - e.sslStart))
    ttfb := some (jsOrZero (e.receiveStart - e.sendEnd))
    download := some (jsOrZero (e.receiveEnd - e.receiveStart))
    total := jsOrZero (endTime - e.startTime) }

/-- `finalizeRequest(requestId, endTime)`: returns `undefined` (here
`none`) when the id is unknown; otherwise mutates the stored record in
place and returns it. -/
def finalizeRequest (c : Collector) (requestId : String) (endTime : Int) :
    Collector × Option TimingEntry :=
  match mapGet c.metrics requestId with
  | none => (c, none)
  | some e =>
    let e2 := finalizedEntry e endTime
    ({ c with metrics := mapSet c.metrics requestId e2 }, some e2)

/-- `getMetrics(requestId)`: `this.metrics.get(requestId)`. -/
def getMetrics (c : Collector) (requestId : String) : Option TimingEntry :=
  mapGet c.metrics requestId

/-- `cleanupOldMetrics()`: deletes every entry with
`now - metric.endTime > this.retentionPeriod`; the current time `now`
(`Date.now()` in the source) is passed explicitly. -/
def cleanupOldMetrics (c : Collector) (now : Int) : Collector :=
  { c with metrics :=
      c.metrics.filter (fun p => decide (now - p.2.endTime ≤ c.retentionPeriod)) }

theorem mapGet_mapSet_self (m : MetricsMap) (k : String) (v : TimingEntry) :
    mapGet (mapSet m k v) k = some v := by
  unfold mapSet
  split
  · rename_i h
    induction m with
    | nil => simp at h
    | cons p rest ih =>
      by_cases hp : p.1 = k
      · simp [mapGet, List.find?, hp]
      · simp only [List.any_cons, Bool.or_eq_true, decide_eq_true_eq] at h
        rcases h with h | h
        · exact absurd h hp
        · simpa [mapGet, List.find?, hp] using ih h
  · rename_i h
    induction m with
    | nil => simp [mapGet, List.find?]
    | cons p rest ih =>
      simp only [List.any_cons, Bool.or_eq_true, decide_eq_true_eq, not_or] at h
      simpa [mapGet, List.find?, h.1] using ih h.2

theorem mapSet_mapSet (m : MetricsMap) (k : String) (v w : TimingEntry) :
    mapSet (mapSet m k v) k w = mapSet m k w := by
  unfold mapSet
  split
  · rename_i h
    have hany : (m.map (fun p => if p.1 = k then (k, v) else p)).any
        (fun p => decide (p.1 = k)) = true := by
      rw [List.any_eq_true] at h ⊢
      obtain ⟨p, hp, hpk⟩ := h
      refine ⟨(k, v), List.mem_map.mpr ⟨p, hp, ?_⟩, by simp⟩
      simp [decide_eq_true_eq.mp hpk]
    rw [if_pos hany, List.map_map]
    apply List.map_congr_left
    intro p _
    by_cases hp : p.1 = k <;> simp [hp]
  · rename_i h
    have hany : ((m ++ [(k, v)]).any (fun p => decide (p.1 = k))) = true := by
      rw [List.any_eq_true]
      exact ⟨(k, v), by simp, by simp⟩
    rw [if_pos hany, List.map_append]
    have hm : m.map (fun p => if p.1 = k then (k, w) else p) = m := by
      have hall : ∀ p ∈ m, ¬(p.1 = k) := by
        intro p hp hpk
        exact h (List.any_eq_true.mpr ⟨p, hp, by simp [hpk]⟩)
      calc m.map (fun p => if p.1 = k then (k, w) else p) = m.map id := by
            apply List.map_congr_left
            intro p hp
            simp [hall p hp]
        _ = m := List.map_id m
    simp [hm]

/-- A captured request's fields used by the aggregate-stats computation in
the message-handler tests: `{ status, responseTime }`. -/
structure ReqStat where
  status : Int
  responseTime : ℚ
deriving DecidableEq, Repr

/-- `requests.length` in the aggregate-stats computation. -/
def totalRequests (rs : List ReqStat) : Nat :=
  rs.length

/-- `requests.filter((r) => r.status >= 200 && r.status < 300).length`. -/
def successCount (rs : List ReqStat) : Nat :=
  (rs.filter (fun r => decide (200 ≤ r.status ∧ r.status < 300))).length

/-- Modelled from the spec: `errorCount`, the error-status bucket of a
GoldFact; the GoldAggregator is not present under src/ (the
message-handler test computes only `totalRequests`, `successfulRequests`
and `avgResponseTime`), so the error bucket counts the non-success
statuses at or above 400, the spec's error class. -/
def errorCount (rs : List ReqStat) : Nat :=
  (rs.filter (fun r => decide (400 ≤ r.status))).length

/-- `requests.reduce((sum, r) => sum + r.responseTime, 0)`. -/
def sumResponseTime (rs : List ReqStat) : ℚ :=
  (rs.map (fun r => r.responseTime)).sum

/-- `avgResponseTime` derived as `sumResponseTime / totalRequests`,
never stored independently. -/
def avgResponseTime (rs : List ReqStat) : ℚ :=
  sumResponseTime rs / (totalRequests rs : ℚ)

/-- The three requests of the aggregate-stats scenario: statuses
200, 200, 404 with response times 100, 200, 150 ms. -/
def scenarioRequests : List ReqStat :=
  [⟨200, 100⟩, ⟨200, 200⟩, ⟨404, 150⟩]

/-- Capture-filter configuration: include/exclude lists for domains and
request types. -/
structure FilterConfig where
  includeDomains : List String
  excludeDomains : List String
  includeTypes : List String
  excludeTypes : List String
deriving DecidableEq, Repr

/-- Modelled from the spec: the combined CaptureFilter decision; the
repository tests only exercise single-list membership checks
(`includeDomains.includes`, `excludeDomains.includes`,
`includeTypes.includes`), so the composite rule — exclude checks first,
then include lists treated as unrestricted when empty — is taken from
the spec's CaptureFilter contract. -/
def captureAllowed (cfg : FilterConfig) (domain ty : String) : Bool :=
  if domain ∈ cfg.excludeDomains then false
  else if cfg.includeDomains ≠ [] ∧ domain ∉ cfg.includeDomains then false
  else if ty ∈ cfg.excludeTypes then false
  else if cfg.includeTypes ≠ [] ∧ ty ∉ cfg.includeTypes then false
  else true

/-- A raw-capture BronzeRecord; `id` is the dedupe key. -/
structure BronzeRecord where
  id : String
  url : String
  method : String
  domain : String
  status : Int
  responseTime : ℚ
  timestamp : Int
deriving DecidableEq, Repr

/-- Modelled from the spec: `BronzeStore.insert`, idempotent by id — a
duplicate insert returns success without creating a second row or
mutating the first; the BronzeStore itself is not present under src/
(the tests exercise a raw SQL statement that throws on a UNIQUE
constraint, and the import path skips records whose id already exists).
The returned `Bool` is the success flag. -/
def bronzeInsert (store : List BronzeRecord) (r : BronzeRecord) :
    List BronzeRecord × Bool :=
  if store.any (fun x => decide (x.id = r.id)) then (store, true)
  else (store ++ [r], true)

/-- C1 (counterexample): the collector clamps no negative sub-metric.
Capturing "r" at time 0, recording `dnsStart = 100, dnsEnd = 50` and
finalizing yields `dns = -50`, a negative sub-metric, whereas the claim
says any negative difference is replaced by 0. -/
theorem C1_counterexample :
    ((finalizeRequest (updateRequestTiming (captureRequestStart ⟨true, 100, 1000, []⟩ 0 "r" 0) "r"
        (some ⟨some 100, some 50, none, none, none, none, none, none, none, none⟩)) "r" 200).2.bind
      TimingEntry.dns) = some (-50) ∧ ¬((0 : Int) ≤ -50) := by
  constructor
  · have h : shouldCapture ⟨true, 100, 1000, []⟩ 0 = true := by
      simp [shouldCapture]
    simp [finalizeRequest, updateRequestTiming, captureRequestStart, h, mapGet, mapSet,
      List.find?, freshEntry, jsOr, finalizedEntry, jsOrZero]
  · decide

/-- C1 (amended): for every captured requestId, `finalizeRequest` returns
a metric in which each sub-metric equals its defined timestamp difference
exactly — `dns = dnsEnd - dnsStart`, `tcp = (connectEnd - connectStart) -
(sslEnd - sslStart)`, `ssl = sslEnd - sslStart`, `ttfb = receiveStart -
sendEnd`, `download = receiveEnd - receiveStart`, `total = endTime -
startTime` — with no clamping: the `|| 0` fallback replaces only a falsy
(zero or NaN) result, so negative differences are returned as-is. -/
theorem C1_finalize_submetrics (c : Collector) (rid : String) (e : TimingEntry)
    (endTime : Int) (h : getMetrics c rid = some e) :
    (finalizeRequest c rid endTime).2 = some
      { e with
        endTime := endTime
        dns := some (e.dnsEnd - e.dnsStart)
        tcp := some (e.connectEnd - e.connectStart - (e.sslEnd - e.sslStart))
        ssl := some (e.sslEnd - e.sslStart)
        ttfb := some (e.receiveStart - e.sendEnd)
        download := some (e.receiveEnd - e.receiveStart)
        total := endTime - e.startTime } := by
  unfold getMetrics at h
  unfold finalizeRequest
  rw [h]
  simp [finalizedEntry, jsOrZero_eq]

/-- C1 witness: the amended finalize theorem applied to a concrete
collector holding a fresh entry for "r" captured at time 7. -/
theorem C1_finalize_submetrics_witness :
    (finalizeRequest ⟨true, 100, 1000, [("r", freshEntry 7)]⟩ "r" 20).2 = some
      { freshEntry 7 with
        endTime := 20
        dns := some ((freshEntry 7).dnsEnd - (freshEntry 7).dnsStart)
        tcp := some ((freshEntry 7).connectEnd - (freshEntry 7).connectStart -
          ((freshEntry 7).sslEnd - (freshEntry 7).sslStart))
        ssl := some ((freshEntry 7).sslEnd - (freshEntry 7).sslStart)
        ttfb := some ((freshEntry 7).receiveStart - (freshEntry 7).sendEnd)
        download := some ((freshEntry 7).receiveEnd - (freshEntry 7).receiveStart)
        total := 20 - (freshEntry 7).startTime } :=
  C1_finalize_submetrics ⟨true, 100, 1000, [("r", freshEntry 7)]⟩ "r" (freshEntry 7) 20 rfl

/-- C2 (counterexample): `updateRequestTiming` does not merge. After a
first update sets `dnsStart = 100`, a second update containing only
`dnsEnd` resets `dnsStart` to 0, whereas the claim says a field not
present in the update is left unchanged. -/
theorem C2_counterexample :
    ((getMetrics (updateRequestTiming (captureRequestStart ⟨true, 100, 1000, []⟩ 0 "r" 0) "r"
        (some ⟨some 100, none, none, none, none, none, none, none, none, none⟩)) "r").map
      TimingEntry.dnsStart) = some 100 ∧
    ((getMetrics (updateRequestTiming (updateRequestTiming
        (captureRequestStart ⟨true, 100, 1000, []⟩ 0 "r" 0) "r"
        (some ⟨some 100, none, none, none, none, none, none, none, none, none⟩)) "r"
        (some ⟨none, some 50, none, none, none, none, none, none, none, none⟩)) "r").map
      TimingEntry.dnsStart) = some 0 ∧ ((0 : Int) ≠ 100) := by
  have h : shouldCapture ⟨true, 100, 1000, []⟩ 0 = true := by
    simp [shouldCapture]
  refine ⟨?_, ?_, by decide⟩ <;>
    simp [getMetrics, updateRequestTiming, captureRequestStart, h, mapGet, mapSet,
      List.find?, freshEntry, jsOr]

/-- C2 (amended): for an unknown requestId `updateRequestTiming` is a
no-op and never throws; for a known requestId it overwrites every phase
field of the stored record with the update's value where present and
with 0 where absent (absent fields are reset to 0, not left
unchanged). -/
theorem C2_update_overwrites (c : Collector) (rid : String) (t : TimingUpdate) :
    (getMetrics c rid = none → updateRequestTiming c rid (some t) = c) ∧
    (∀ e, getMetrics c rid = some e →
      getMetrics (updateRequestTiming c rid (some t)) rid = some
        { e with
          dnsStart := jsOr t.dnsStart
          dnsEnd := jsOr t.dnsEnd
          connectStart := jsOr t.connectStart
          connectEnd := jsOr t.connectEnd
          sslStart := jsOr t.sslStart
          sslEnd := jsOr t.sslEnd
          sendStart := jsOr t.sendStart
          sendEnd := jsOr t.sendEnd
          receiveStart := jsOr t.receiveStart
          receiveEnd := jsOr t.receiveEnd }) := by
  constructor
  · intro h
    unfold getMetrics at h
    unfold updateRequestTiming
    rw [h]
  · intro e h
    unfold getMetrics at h ⊢
    unfold updateRequestTiming
    rw [h]
    simp [mapGet_mapSet_self]

/-- C2 witness: the amended update theorem applied to a collector without
"r" (no-op) and to one holding a fresh entry for "r" (overwrite). -/
theorem C2_update_overwrites_witness :
    updateRequestTiming ⟨true, 100, 1000, []⟩ "r"
      (some ⟨some 100, none, none, none, none, none, none, none, none, none⟩) =
      ⟨true, 100, 1000, []⟩ ∧
    getMetrics (updateRequestTiming ⟨true, 100, 1000, [("r", freshEntry 3)]⟩ "r"
      (some ⟨some 100, none, none, none, none, none, none, none, none, none⟩)) "r" = some
        { freshEntry 3 with
          dnsStart := jsOr (some 100)
          dnsEnd := jsOr none
          connectStart := jsOr none
          connectEnd := jsOr none
          sslStart := jsOr none
          sslEnd := jsOr none
          sendStart := jsOr none
          sendEnd := jsOr none
          receiveStart := jsOr none
          receiveEnd := jsOr none } :=
  ⟨(C2_update_overwrites ⟨true, 100, 1000, []⟩ "r"
      ⟨some 100, none, none, none, none, none, none, none, none, none⟩).1 rfl,
    (C2_update_overwrites ⟨true, 100, 1000, [("r", freshEntry 3)]⟩ "r"
      ⟨some 100, none, none, none, none, none, none, none, none, none⟩).2 (freshEntry 3) rfl⟩

/-- C3 (counterexample): the sweep also removes never-finalized entries.
"r" is captured at time 500 and never finalized, so its `endTime` is the
initial 0; with `retentionPeriod = 1000`, a sweep at `now = 1001` removes
it because `1001 - 0 > 1000`, whereas the claim says an entry that was
never finalized is never removed. -/
theorem C3_counterexample :
    getMetrics (captureRequestStart ⟨true, 100, 1000, []⟩ 0 "r" 500) "r" = some (freshEntry 500) ∧
    (freshEntry 500).endTime = 0 ∧ (freshEntry 500).dns = none ∧
    getMetrics (cleanupOldMetrics (captureRequestStart ⟨true, 100, 1000, []⟩ 0 "r" 500) 1001) "r" =
      none := by
  have h : shouldCapture ⟨true, 100, 1000, []⟩ 0 = true := by
    simp [shouldCapture]
  refine ⟨?_, rfl, rfl, ?_⟩ <;>
    simp [getMetrics, cleanupOldMetrics, captureRequestStart, h, mapGet, mapSet,
      List.find?, List.filter, freshEntry]

/-- C3 (amended): `cleanupOldMetrics` at time `now` retains an entry if
and only if `now - endTime ≤ retentionPeriod`, with no check that the
entry was finalized: the boundary case `now - endTime = retentionPeriod`
is retained (strict `>` removal), but a never-finalized entry carries its
initial `endTime = 0` and is removed as soon as `now > retentionPeriod`. -/
theorem C3_sweep_membership (c : Collector) (now : Int) (rid : String) (e : TimingEntry) :
    (rid, e) ∈ (cleanupOldMetrics c now).metrics ↔
      ((rid, e) ∈ c.metrics ∧ now - e.endTime ≤ c.retentionPeriod) := by
  unfold cleanupOldMetrics
  simp [List.mem_filter]

/-- C4 (counterexample): with `enabled = true` and `samplingRate = 0`, a
`Math.random()` draw of exactly 0 satisfies `0 * 100 <= 0`, so
`captureRequestStart` stores state and after `finalizeRequest` the entry
is retrievable, whereas the claim says the metrics map stays empty for
every value of the draw. -/
theorem C4_counterexample :
    (captureRequestStart ⟨true, 0, 1000, []⟩ 0 "r" 5).metrics = [("r", freshEntry 5)] ∧
    getMetrics (finalizeRequest (captureRequestStart ⟨true, 0, 1000, []⟩ 0 "r" 5) "r" 9).1 "r" =
      some (finalizedEntry (freshEntry 5) 9) := by
  have h : shouldCapture ⟨true, 0, 1000, []⟩ 0 = true := by
    simp [shouldCapture]
  constructor <;>
    simp [getMetrics, finalizeRequest, captureRequestStart, h, mapGet, mapSet, List.find?]

/-- C4 (amended): with `enabled = true` and `samplingRate = 0`, for every
strictly positive sampling draw — `Math.random()` returns 0 only with the
single draw value 0 — `captureRequestStart` followed immediately by
`finalizeRequest` creates no retrievable state: the metrics map stays
empty, finalize returns `undefined` and `getMetrics` returns
`undefined`. -/
theorem C4_sampling_zero (rand : ℚ) (rid : String) (ts endT retention : Int)
    (h : 0 < rand) :
    (captureRequestStart ⟨true, 0, retention, []⟩ rand rid ts).metrics = [] ∧
    (finalizeRequest (captureRequestStart ⟨true, 0, retention, []⟩ rand rid ts) rid endT).1.metrics =
      [] ∧
    (finalizeRequest (captureRequestStart ⟨true, 0, retention, []⟩ rand rid ts) rid endT).2 =
      none ∧
    getMetrics (finalizeRequest (captureRequestStart ⟨true, 0, retention, []⟩ rand rid ts) rid
      endT).1 rid = none := by
  have hpos : ¬(rand * 100 ≤ 0) := by
    push_neg
    nlinarith
  have hsc : shouldCapture ⟨true, 0, retention, []⟩ rand = false := by
    simp [shouldCapture, hpos]
  refine ⟨?_, ?_, ?_, ?_⟩ <;>
    simp [getMetrics, finalizeRequest, captureRequestStart, hsc, mapGet, List.find?]

/-- C4 witness: the sampling-zero theorem at the concrete draw 1. -/
theorem C4_sampling_zero_witness :
    (captureRequestStart ⟨true, 0, 1000, []⟩ 1 "r" 5).metrics = [] ∧
    (finalizeRequest (captureRequestStart ⟨true, 0, 1000, []⟩ 1 "r" 5) "r" 9).1.metrics = [] ∧
    (finalizeRequest (captureRequestStart ⟨true, 0, 1000, []⟩ 1 "r" 5) "r" 9).2 = none ∧
    getMetrics (finalizeRequest (captureRequestStart ⟨true, 0, 1000, []⟩ 1 "r" 5) "r" 9).1 "r" =
      none :=
  C4_sampling_zero 1 "r" 5 9 1000 (by norm_num)

/-- C5: for the scenario of three requests with statuses 200, 200, 404
and response times 100, 200, 150 ms, the aggregation yields
`totalRequests = 3`, `successCount = 2` (counting exactly the statuses
with 200 ≤ status < 300), `errorCount = 1`, and `avgResponseTime = 150`,
where `avgResponseTime` is derived as `sumResponseTime / totalRequests`
rather than stored independently. -/
theorem C5_aggregate_scenario :
    totalRequests scenarioRequests = 3 ∧
    successCount scenarioRequests = 2 ∧
    errorCount scenarioRequests = 1 ∧
    avgResponseTime scenarioRequests = 150 ∧
    avgResponseTime scenarioRequests =
      sumResponseTime scenarioRequests / (totalRequests scenarioRequests : ℚ) := by
  refine ⟨rfl, by decide, by decide, ?_, rfl⟩
  norm_num [avgResponseTime, sumResponseTime, totalRequests, scenarioRequests]

/-- C6: the capture decision is true iff the domain is not excluded, the
domain include list is empty or contains the domain, the type is not
excluded, and the type include list is empty or contains the type; and
when a domain or type is in an exclude list, capture is denied no matter
what the include lists say (exclude wins). -/
theorem C6_capture_decision (cfg : FilterConfig) (domain ty : String) :
    (captureAllowed cfg domain ty = true ↔
      (domain ∉ cfg.excludeDomains ∧
       (cfg.includeDomains = [] ∨ domain ∈ cfg.includeDomains) ∧
       ty ∉ cfg.excludeTypes ∧
       (cfg.includeTypes = [] ∨ ty ∈ cfg.includeTypes))) ∧
    (domain ∈ cfg.excludeDomains → captureAllowed cfg domain ty = false) ∧
    (ty ∈ cfg.excludeTypes → captureAllowed cfg domain ty = false) := by
  unfold captureAllowed
  refine ⟨?_, ?_, ?_⟩
  · split_ifs <;> simp_all <;> tauto
  · intro h
    simp [h]
  · intro h
    split_ifs <;> simp_all

/-- C6 witness: the capture-decision theorem applied at concrete
configurations showing both exclusion precedences. -/
theorem C6_capture_decision_witness :
    captureAllowed ⟨["bad.com"], ["bad.com"], [], []⟩ "bad.com" "xhr" = false ∧
    captureAllowed ⟨[], [], ["script"], ["script"]⟩ "a.com" "script" = false :=
  ⟨(C6_capture_decision ⟨["bad.com"], ["bad.com"], [], []⟩ "bad.com" "xhr").2.1 (by simp),
   (C6_capture_decision ⟨[], [], ["script"], ["script"]⟩ "a.com" "script").2.2 (by simp)⟩

/-- C7: inserting a BronzeRecord whose id is already stored is a success
no-op: the store is unchanged (the previously stored record is not
mutated), the success flag is returned, and exactly one record with that
id exists afterwards. -/
theorem C7_bronze_insert_idempotent (s : List BronzeRecord) (r r2 : BronzeRecord)
    (hid : r2.id = r.id) (hfresh : ∀ x ∈ s, ¬(x.id = r.id)) :
    (bronzeInsert s r).1 = s ++ [r] ∧
    (bronzeInsert (bronzeInsert s r).1 r2).1 = s ++ [r] ∧
    (bronzeInsert (bronzeInsert s r).1 r2).2 = true ∧
    ((bronzeInsert (bronzeInsert s r).1 r2).1.filter (fun x => decide (x.id = r.id))) = [r] := by
  have h1 : s.any (fun x => decide (x.id = r.id)) = false := by
    rw [List.any_eq_false]
    intro x hx
    simpa using hfresh x hx
  have hins : (bronzeInsert s r).1 = s ++ [r] := by
    simp [bronzeInsert, h1]
  have h2 : ((s ++ [r]).any (fun x => decide (x.id = r2.id))) = true := by
    rw [List.any_eq_true]
    exact ⟨r, by simp, by simp [hid]⟩
  have hdup : bronzeInsert (s ++ [r]) r2 = (s ++ [r], true) := by
    simp [bronzeInsert, h2]
  have hfilter : (s ++ [r]).filter (fun x => decide (x.id = r.id)) = [r] := by
    rw [List.filter_append]
    have hs : s.filter (fun x => decide (x.id = r.id)) = [] := by
      rw [List.filter_eq_nil_iff]
      intro x hx
      simpa using hfresh x hx
    simp [hs]
  rw [hins, hdup]
  exact ⟨rfl, rfl, rfl, hfilter⟩

/-- C7 witness: the idempotent-insert theorem on an empty store, a
record with id "id1", and a conflicting record with the same id but a
different url. -/
theorem C7_bronze_insert_idempotent_witness :
    (bronzeInsert [] ⟨"id1", "u", "GET", "d", 200, 100, 5⟩).1 =
      [⟨"id1", "u", "GET", "d", 200, 100, 5⟩] ∧
    (bronzeInsert (bronzeInsert [] ⟨"id1", "u", "GET", "d", 200, 100, 5⟩).1
      ⟨"id1", "u2", "POST", "d2", 404, 150, 6⟩).1 = [⟨"id1", "u", "GET", "d", 200, 100, 5⟩] ∧
    (bronzeInsert (bronzeInsert [] ⟨"id1", "u", "GET", "d", 200, 100, 5⟩).1
      ⟨"id1", "u2", "POST", "d2", 404, 150, 6⟩).2 = true ∧
    ((bronzeInsert (bronzeInsert [] ⟨"id1", "u", "GET", "d", 200, 100, 5⟩).1
      ⟨"id1", "u2", "POST", "d2", 404, 150, 6⟩).1.filter
        (fun x => decide (x.id = (⟨"id1", "u", "GET", "d", 200, 100, 5⟩ : BronzeRecord).id))) =
      [⟨"id1", "u", "GET", "d", 200, 100, 5⟩] := by
  have h := C7_bronze_insert_idempotent [] ⟨"id1", "u", "GET", "d", 200, 100, 5⟩
    ⟨"id1", "u2", "POST", "d2", 404, 150, 6⟩ rfl (by simp)
  simpa using h

/-- C8: for a requestId already present, a second `captureRequestStart`
that passes the sampling gate replaces the stored state entirely with a
fresh record: `startTime` becomes the new timestamp and every phase
timestamp, `endTime` and `total` are reset to 0 (and the derived fields
are absent again), discarding all previously accumulated timing data. -/
theorem C8_recapture_resets (c : Collector) (rand : ℚ) (rid : String) (e : TimingEntry)
    (t2 : Int) (hcap : shouldCapture c rand = true) (hprev : getMetrics c rid = some e) :
    getMetrics (captureRequestStart c rand rid t2) rid = some (freshEntry t2) ∧
    freshEntry t2 = ⟨t2, 0, 0, 0, 0, 0, 0, 0, 0, 0, 0, 0, 0, none, none, none, none, none⟩ := by
  refine ⟨?_, rfl⟩
  unfold getMetrics captureRequestStart
  rw [if_pos hcap]
  exact mapGet_mapSet_self c.metrics rid (freshEntry t2)

/-- C8 witness: the recapture theorem at a collector already holding an
updated entry for "r", sampling rate 100 and draw 0. -/
theorem C8_recapture_resets_witness :
    getMetrics (captureRequestStart
      ⟨true, 100, 1000, [("r", { freshEntry 1 with dnsStart := 40, dnsEnd := 70 })]⟩ 0 "r" 9) "r" =
      some (freshEntry 9) ∧
    freshEntry 9 = ⟨9, 0, 0, 0, 0, 0, 0, 0, 0, 0, 0, 0, 0, none, none, none, none, none⟩ :=
  C8_recapture_resets
    ⟨true, 100, 1000, [("r", { freshEntry 1 with dnsStart := 40, dnsEnd := 70 })]⟩ 0 "r"
    { freshEntry 1 with dnsStart := 40, dnsEnd := 70 } 9 (by simp [shouldCapture]) rfl

/-- C9: for a captured requestId, `finalizeRequest` with a fixed endTime
is idempotent: a second call returns the same metric record, leaves the
state identical to the state after the first call, and the entry remains
retrievable via `getMetrics` after finalize. -/
theorem C9_finalize_idempotent (c : Collector) (rid : String) (e : TimingEntry) (endT : Int)
    (h : getMetrics c rid = some e) :
    (finalizeRequest (finalizeRequest c rid endT).1 rid endT).2 =
      (finalizeRequest c rid endT).2 ∧
    (finalizeRequest (finalizeRequest c rid endT).1 rid endT).1 =
      (finalizeRequest c rid endT).1 ∧
    getMetrics (finalizeRequest c rid endT).1 rid = (finalizeRequest c rid endT).2 := by
  unfold getMetrics at h
  have h1 : finalizeRequest c rid endT =
      ({ c with metrics := mapSet c.metrics rid (finalizedEntry e endT) },
       some (finalizedEntry e endT)) := by
    unfold finalizeRequest
    rw [h]
  have hg : mapGet (mapSet c.metrics rid (finalizedEntry e endT)) rid =
      some (finalizedEntry e endT) :=
    mapGet_mapSet_self c.metrics rid (finalizedEntry e endT)
  have hidem : finalizedEntry (finalizedEntry e endT) endT = finalizedEntry e endT := by
    simp [finalizedEntry]
  have h2 : finalizeRequest { c with metrics := mapSet c.metrics rid (finalizedEntry e endT) }
      rid endT =
      ({ c with metrics := mapSet c.metrics rid (finalizedEntry e endT) },
       some (finalizedEntry e endT)) := by
    unfold finalizeRequest
    simp only [hg, hidem, mapSet_mapSet]
  rw [h1]
  simp only [h2]
  exact ⟨trivial, trivial, by simpa [getMetrics] using hg⟩

/-- C9 witness: the finalize-idempotence theorem at a concrete collector
holding a fresh entry for "r" captured at time 2. -/
theorem C9_finalize_idempotent_witness :
    (finalizeRequest (finalizeRequest ⟨true, 100, 1000, [("r", freshEntry 2)]⟩ "r" 8).1 "r" 8).2 =
      (finalizeRequest ⟨true, 100, 1000, [("r", freshEntry 2)]⟩ "r" 8).2 ∧
    (finalizeRequest (finalizeRequest ⟨true, 100, 1000, [("r", freshEntry 2)]⟩ "r" 8).1 "r" 8).1 =
      (finalizeRequest ⟨true, 100, 1000, [("r", freshEntry 2)]⟩ "r" 8).1 ∧
    getMetrics (finalizeRequest ⟨true, 100, 1000, [("r", freshEntry 2)]⟩ "r" 8).1 "r" =
      (finalizeRequest ⟨true, 100, 1000, [("r", freshEntry 2)]⟩ "r" 8).2 :=
  C9_finalize_idempotent ⟨true, 100, 1000, [("r", freshEntry 2)]⟩ "r" (freshEntry 2) 8 rfl

/-- C10: calling `updateRequestTiming` with a `null`/`undefined` timing
argument leaves the collector completely unchanged and never throws, for
every collector state and every requestId (known or unknown); the
operation is total. -/
theorem C10_update_null_noop (c : Collector) (rid : String) :
    updateRequestTiming c rid none = c := by
  unfold updateRequestTiming
  cases mapGet c.metrics rid <;> rfl

end URA
